import Mathlib

/-!
Verification of the paginated GitHub tool handlers of this repository.

The definitions below are shallow embeddings of the TypeScript handlers in
`src/tools/`.  JavaScript truthiness on optional strings and numbers is made
explicit (`none` and `some ""` are both falsy for strings; `some 0` is falsy
for numbers).  The HTTP layer is modelled by passing each handler the
response(s) the remote service would produce: a listing run consumes a list
of `FetchResult` values (one per page fetched), a single-shot handler
consumes one `HttpResult`.  The parsed `Link` header is modelled by the
`next : Bool` / `last : Option Nat` components of a successful fetch,
corresponding to `linkHeader.includes('rel="next"')` and the
`page=(\d+)>; rel="last"` match in the source.
-/

namespace GhMcp

/-- The worker environment: `GITHUB_AUTH_TOKEN` may be unset (`none`). -/
structure Env where
  GITHUB_AUTH_TOKEN : Option String
deriving DecidableEq

/-- JavaScript truthiness of `env.GITHUB_AUTH_TOKEN`: unset and the empty
string are both falsy (source guard `if (!env.GITHUB_AUTH_TOKEN)`). -/
def envTokenTruthy (env : Env) : Bool :=
  match env.GITHUB_AUTH_TOKEN with
  | none => false
  | some t => decide (t ≠ "")

/-- The error text every handler returns when the credential is falsy. -/
def configErrorText : String :=
  "Error: GITHUB_AUTH_TOKEN environment variable is not set"

/-- A raw issue as consumed by the listing formatter
(`list-github-issues.ts` reads `number`, `title`, `state`, `body`). -/
structure Issue where
  number : Nat
  title : String
  state : String
  body : Option String
deriving DecidableEq

/-- Result of one page fetch inside a listing loop.  `ok` carries the page
items together with the parsed `Link` header information: `next` is
`linkHeader.includes('rel="next"')` (`false` when the header is absent) and
`last` is the page number extracted by the `rel="last"` regex.  `httpErr`
is a non-2xx response (status code and upstream message, with the
`errorData.message || JSON.stringify(errorData)` fallback already applied);
`exn` is a thrown transport-level failure caught by the `catch` block. -/
inductive FetchResult where
  | ok (items : List Issue) (next : Bool) (last : Option Nat)
  | httpErr (status : Nat) (msg : String)
  | exn (msg : String)
deriving DecidableEq

/-- Why the pagination loop stopped, mirroring the three `break` sites in
`list-github-issues.ts`: the `max_results` cap was reached (line 106), the
`Link` header lacked a `rel="next"` relation, or the page was shorter than
the effective page size (line 113). -/
inductive StopReason where
  | capReached
  | noNext
  | shortPage
deriving DecidableEq

/-- Outcome of the pagination loop.  `failure` is an early return on a
non-ok response, `crashed` an early return from the `catch` block; neither
carries any aggregated items, which models that the source discards
`allIssues` on every failure path.  `starved` is reached only when the
supplied response list ends while the loop would fetch another page (never
for a complete trace). -/
inductive LoopResult where
  | failure (status : Nat) (msg : String)
  | crashed (msg : String)
  | finished (issues : List Issue) (hasMore : Bool) (total : Option Nat) (reason : StopReason)
  | starved (issues : List Issue) (hasMore : Bool) (total : Option Nat)
deriving DecidableEq

/-- The cap test `max_results && allIssues.length >= max_results`:
JavaScript truthiness makes a cap of `0` inert. -/
def capHit (cap : Option Nat) (len : Nat) : Bool :=
  match cap with
  | some c => decide (c ≠ 0) && decide (c ≤ len)
  | none => false

/-- `splice(max_results)` keeps the first `max_results` items. -/
def capValue (cap : Option Nat) : Nat := cap.getD 0

/-- `totalAvailable` update: set once, from the first header carrying a
`rel="last"` page number, to `lastPage * resultsPerPage`. -/
def updateTotal (total : Option Nat) (last : Option Nat) (rpp : Nat) : Option Nat :=
  match total, last with
  | none, some n => some (n * rpp)
  | _, _ => total

/-- The `while (true)` pagination loop of `listGithubIssuesHandler`,
lines 52–118, with the page counter left implicit (each list element is the
response to the next page).  State threads `allIssues` (`acc`),
`totalAvailable` (`total`) and `hasMorePages` (`hm`, initially `false`). -/
def runIssuesLoop (cap : Option Nat) (rpp : Nat) (acc : List Issue)
    (total : Option Nat) (hm : Bool) : List FetchResult → LoopResult
  | [] => LoopResult.starved acc hm total
  | FetchResult.httpErr status msg :: _ => LoopResult.failure status msg
  | FetchResult.exn msg :: _ => LoopResult.crashed msg
  | FetchResult.ok items next last :: rest =>
      let acc2 := acc ++ items
      let total2 := updateTotal total last rpp
      if capHit cap acc2.length then
        LoopResult.finished (acc2.take (capValue cap)) true total2 StopReason.capReached
      else if next = false then
        LoopResult.finished acc2 next total2 StopReason.noNext
      else if items.length < rpp then
        LoopResult.finished acc2 next total2 StopReason.shortPage
      else
        runIssuesLoop cap rpp acc2 total2 next rest

/-- Number of page fetches the loop performs on a given response trace
(the failing fetch, if any, counts as one). -/
def pagesConsumed (cap : Option Nat) (rpp : Nat) (accLen : Nat) : List FetchResult → Nat
  | [] => 0
  | FetchResult.httpErr _ _ :: _ => 1
  | FetchResult.exn _ :: _ => 1
  | FetchResult.ok items next _ :: rest =>
      let len2 := accLen + items.length
      if capHit cap len2 then 1
      else if next = false then 1
      else if items.length < rpp then 1
      else 1 + pagesConsumed cap rpp len2 rest

/-- One HTTP request of a listing operation: the `page` and `per_page`
query parameters actually sent (filters are passed through unchanged and
carry no pagination content). -/
structure Request where
  page : Nat
  perPage : Nat
deriving DecidableEq

/-- `issue.body ? issue.body.trim() : "(No description)"` — truthiness:
an absent or empty body is replaced by the placeholder. -/
def bodyText (b : Option String) : String :=
  match b with
  | some s => if s = "" then "(No description)" else s.trim
  | none => "(No description)"

/-- `body.length > 200 ? body.substring(0, 200) + "..." : body`. -/
def truncateBody (s : String) : String :=
  if s.length > 200 then s.take 200 ++ "..." else s

/-- `truncatedBody.replace(/\n/g, " ")`: every newline becomes a space. -/
def flattenNewlines (s : String) : String :=
  String.mk (s.data.map (fun c => if c = '\n' then ' ' else c))

/-- One line of the issue listing (`list-github-issues.ts` lines 121–127). -/
def formatIssue (i : Issue) : String :=
  "#" ++ toString i.number ++ ": " ++ i.title ++ " [" ++ i.state ++ "]"
    ++ "\n   " ++ flattenNewlines (truncateBody (bodyText i.body))

/-- Outcome of the full `list_github_issues` handler.  `error` carries the
returned error text (and no items); `success` carries the aggregation,
`hasMore`, the estimated total, the stop reason and the rendered listing. -/
inductive ListIssuesOut where
  | error (text : String)
  | success (issues : List Issue) (hasMore : Bool) (total : Option Nat)
      (reason : StopReason) (formatted : String)
  | incomplete (issues : List Issue) (hasMore : Bool) (total : Option Nat)
deriving DecidableEq

/-- Error text of a failed page fetch in `list_github_issues`. -/
def listIssuesErrorText (status : Nat) (msg : String) : String :=
  "Error listing issues: " ++ toString status ++ " - " ++ msg

/-- `listGithubIssuesHandler`: credential guard, effective page size
`Math.min(per_page, 100)`, pagination loop, formatting.  The second
component is the list of requests sent (page / per_page pairs). -/
def listGithubIssuesHandler (env : Env) (perPage : Nat) (maxResults : Option Nat)
    (trace : List FetchResult) : ListIssuesOut × List Request :=
  if envTokenTruthy env = false then
    (ListIssuesOut.error configErrorText, [])
  else
    let rpp := Nat.min perPage 100
    let reqs := (List.range (pagesConsumed maxResults rpp 0 trace)).map
      (fun i => Request.mk (i + 1) rpp)
    match runIssuesLoop maxResults rpp [] none false trace with
    | LoopResult.failure status msg =>
        (ListIssuesOut.error (listIssuesErrorText status msg), reqs)
    | LoopResult.crashed msg =>
        (ListIssuesOut.error ("Error listing issues: " ++ msg), reqs)
    | LoopResult.finished issues hmOut tot reason =>
        (ListIssuesOut.success issues hmOut tot reason
          (String.intercalate "\n\n" (issues.map formatIssue)), reqs)
    | LoopResult.starved issues hmOut tot =>
        (ListIssuesOut.incomplete issues hmOut tot, reqs)

/-- Honest remote-server model, fuel-indexed so that it computes: with `A`
available items and page size `s`, page `p` holds items
`(p-1)*s .. p*s-1`, the `rel="next"` relation is present exactly when
items remain beyond the page, and the final (short or exactly-full) page
carries no `rel="next"`. -/
def serverTraceAux (s : Nat) : Nat → List Issue → List FetchResult
  | 0, rem => [FetchResult.ok (rem.take s) false none]
  | fuel + 1, rem =>
      if rem.length ≤ s then [FetchResult.ok (rem.take s) false none]
      else FetchResult.ok (rem.take s) true none :: serverTraceAux s fuel (rem.drop s)

/-- The complete response trace a server holding `items` produces for page
size `s` (fuel `items.length` always suffices when `1 ≤ s`). -/
def serverTrace (s : Nat) (items : List Issue) : List FetchResult :=
  serverTraceAux s items.length items

/-- Response of a single-shot fetch (repositories, organisations, create,
update, get): payload, or non-ok status with upstream message, or a caught
transport exception. -/
inductive HttpResult (α : Type) where
  | ok (payload : α)
  | httpErr (status : Nat) (msg : String)
  | exn (msg : String)
deriving DecidableEq

/-- A repository record (only identity is needed by the claims; the
formatter projection of `list-github-repositories.ts` reads further fields
that no claim mentions). -/
structure Repo where
  name : String
deriving DecidableEq

/-- The one page returned by the single repository fetch, with the parsed
`rel="next"` presence of its `Link` header. -/
structure RepoPage where
  repos : List Repo
  next : Bool
deriving DecidableEq

/-- Outcome of `list_github_repositories`. -/
inductive ReposOut where
  | error (text : String)
  | success (repos : List Repo) (hasMore : Bool) (page : Nat)
deriving DecidableEq

/-- `listGithubRepositoriesHandler` (`list-github-repositories.ts`
lines 29–143): credential guard, then exactly ONE fetch of the
caller-supplied `page` with the caller-supplied `per_page` — there is no
pagination loop in this handler. -/
def listGithubRepositoriesHandler (env : Env) (perPage page : Nat)
    (resp : HttpResult RepoPage) : ReposOut × List Request :=
  if envTokenTruthy env = false then
    (ReposOut.error configErrorText, [])
  else
    let reqs := [Request.mk page perPage]
    match resp with
    | HttpResult.ok pg => (ReposOut.success pg.repos pg.next page, reqs)
    | HttpResult.httpErr status msg =>
        (ReposOut.error ("Error listing organization repositories: "
          ++ toString status ++ " - " ++ msg), reqs)
    | HttpResult.exn msg =>
        (ReposOut.error ("Error listing organization repositories: " ++ msg), reqs)

/-- An organisation record, as read by `getGithubOrganisationsHandler`. -/
structure Org where
  login : String
  description : Option String
deriving DecidableEq

/-- The one page returned by the single organisation fetch. -/
structure OrgPage where
  orgs : List Org
  next : Bool
deriving DecidableEq

/-- Outcome of `get_github_organisations`. -/
inductive OrgsOut where
  | error (text : String)
  | success (orgs : List Org) (hasMore : Bool) (page : Nat)
deriving DecidableEq

/-- `getGithubOrganisationsHandler` (`list-github-repositories.ts`
lines 160–256): credential guard, then exactly ONE fetch of the
caller-supplied `page` — no pagination loop. -/
def getGithubOrganisationsHandler (env : Env) (perPage page : Nat)
    (resp : HttpResult OrgPage) : OrgsOut × List Request :=
  if envTokenTruthy env = false then
    (OrgsOut.error configErrorText, [])
  else
    let reqs := [Request.mk page perPage]
    match resp with
    | HttpResult.ok pg => (OrgsOut.success pg.orgs pg.next page, reqs)
    | HttpResult.httpErr status msg =>
        (OrgsOut.error ("Error listing organizations: "
          ++ toString status ++ " - " ++ msg), reqs)
    | HttpResult.exn msg =>
        (OrgsOut.error ("Error listing organizations: " ++ msg), reqs)

/-- A JSON value occurring in a create/update request payload. -/
inductive JVal where
  | str (s : String)
  | num (n : Nat)
  | arr (xs : List String)
  | null
deriving DecidableEq

/-- The validated parameters of `update_github_issue`.  Every field beyond
the three identifiers is optional; `milestone` additionally distinguishes
an explicit `null` (`some none`) from absence (`none`). -/
structure UpdateParams where
  owner : String
  repo : String
  issue_number : Nat
  title : Option String
  body : Option String
  state : Option String
  state_reason : Option String
  labels : Option (List String)
  assignees : Option (List String)
  milestone : Option (Option Nat)
deriving DecidableEq

/-- One `if (x !== undefined) payload.key = x` statement for a string
field: the entry is added exactly when the field was supplied. -/
def strField (key : String) (v : Option String) : List (String × JVal) :=
  match v with
  | some s => [(key, JVal.str s)]
  | none => []

/-- One `if (x !== undefined) payload.key = x` statement for a
string-array field. -/
def arrField (key : String) (v : Option (List String)) : List (String × JVal) :=
  match v with
  | some xs => [(key, JVal.arr xs)]
  | none => []

/-- The `if (state_reason !== undefined && state === "closed")` statement:
`state_reason` is added only when it is supplied AND `state` is supplied
as `"closed"`. -/
def stateReasonField (state_reason state : Option String) : List (String × JVal) :=
  match state_reason with
  | some r => if state = some "closed" then [("state_reason", JVal.str r)] else []
  | none => []

/-- The `if (milestone !== undefined) updatePayload.milestone = milestone`
statement: an explicitly-null milestone is sent as JSON `null`. -/
def milestoneField (m : Option (Option Nat)) : List (String × JVal) :=
  match m with
  | some (some n) => [("milestone", JVal.num n)]
  | some none => [("milestone", JVal.null)]
  | none => []

/-- The PATCH payload built by `updateGithubIssueHandler` lines 38–47, as
the ordered key/value list the source assembles statement by statement. -/
def buildUpdatePayload (p : UpdateParams) : List (String × JVal) :=
  strField "title" p.title ++
  strField "body" p.body ++
  strField "state" p.state ++
  stateReasonField p.state_reason p.state ++
  arrField "labels" p.labels ++
  arrField "assignees" p.assignees ++
  milestoneField p.milestone

/-- The issue fields the update success path reads from the response. -/
structure UpdatedIssue where
  title : String
  html_url : String
deriving DecidableEq

/-- Outcome of `update_github_issue`. -/
inductive UpdateOut where
  | error (text : String)
  | success (issueTitle : String) (url : String)
deriving DecidableEq

/-- `updateGithubIssueHandler`: credential guard, payload construction,
no-op short-circuit (`Object.keys(updatePayload).length === 0`), then one
PATCH request.  Second component: the request bodies actually sent. -/
def updateGithubIssueHandler (env : Env) (p : UpdateParams)
    (resp : HttpResult UpdatedIssue) : UpdateOut × List (List (String × JVal)) :=
  if envTokenTruthy env = false then
    (UpdateOut.error configErrorText, [])
  else if (buildUpdatePayload p).length = 0 then
    (UpdateOut.error "Error: No fields provided to update", [])
  else
    match resp with
    | HttpResult.ok u => (UpdateOut.success u.title u.html_url, [buildUpdatePayload p])
    | HttpResult.httpErr status msg =>
        (UpdateOut.error ("Error updating issue: "
          ++ toString status ++ " - " ++ msg), [buildUpdatePayload p])
    | HttpResult.exn msg =>
        (UpdateOut.error ("Error updating issue: " ++ msg), [buildUpdatePayload p])

/-- The validated parameters of `create_github_issue`. -/
structure CreateParams where
  owner : String
  repo : String
  title : String
  body : Option String
  assignees : Option (List String)
  labels : Option (List String)
  milestone : Option Nat
deriving DecidableEq

/-- One `if (x) requestBody.key = x` statement for a string field:
JavaScript truthiness drops a supplied empty string. -/
def truthyStrField (key : String) (v : Option String) : List (String × JVal) :=
  match v with
  | some s => if s = "" then [] else [(key, JVal.str s)]
  | none => []

/-- One `if (x) requestBody.key = x` statement for a number field:
JavaScript truthiness drops a supplied `0`. -/
def truthyNumField (key : String) (v : Option Nat) : List (String × JVal) :=
  match v with
  | some n => if n = 0 then [] else [(key, JVal.num n)]
  | none => []

/-- The POST payload built by `createGithubIssueHandler` lines 31–35:
`title` is always present; `body` and `milestone` are added under
JavaScript truthiness (`if (body)`, `if (milestone)`), the array fields
under `if (assignees)` / `if (labels)` (arrays, even empty, are truthy). -/
def createPayload (p : CreateParams) : List (String × JVal) :=
  [("title", JVal.str p.title)] ++
  truthyStrField "body" p.body ++
  arrField "assignees" p.assignees ++
  arrField "labels" p.labels ++
  truthyNumField "milestone" p.milestone

/-- The issue fields the create success path reads from the response. -/
structure CreatedIssue where
  number : Nat
  title : String
  html_url : String
deriving DecidableEq

/-- Outcome of `create_github_issue`. -/
inductive CreateOut where
  | error (text : String)
  | success (number : Nat) (title : String) (url : String)
deriving DecidableEq

/-- `createGithubIssueHandler`: credential guard, then one POST request
whose body is `createPayload p`.  Second component: the request bodies
actually sent. -/
def createGithubIssueHandler (env : Env) (p : CreateParams)
    (resp : HttpResult CreatedIssue) : CreateOut × List (List (String × JVal)) :=
  if envTokenTruthy env = false then
    (CreateOut.error configErrorText, [])
  else
    match resp with
    | HttpResult.ok c => (CreateOut.success c.number c.title c.html_url, [createPayload p])
    | HttpResult.httpErr status msg =>
        (CreateOut.error ("Error creating issue: "
          ++ toString status ++ " - " ++ msg), [createPayload p])
    | HttpResult.exn msg =>
        (CreateOut.error ("Error creating issue: " ++ msg), [createPayload p])

/-- Reaction counts of an issue (`get-github-issue.ts`; the source reads
each field through `issue.reactions?.field || 0`). -/
structure Reactions where
  total_count : Nat
  plus_one : Nat
  minus_one : Nat
  laugh : Nat
  hooray : Nat
  confused : Nat
  heart : Nat
  rocket : Nat
  eyes : Nat
deriving DecidableEq

/-- A user reference (`login` field). -/
structure UserRef where
  login : String
deriving DecidableEq

/-- A label reference (`name` field). -/
structure LabelRef where
  name : String
deriving DecidableEq

/-- A milestone reference (`title` field). -/
structure MilestoneRef where
  title : String
deriving DecidableEq

/-- A raw issue as returned by the single-issue endpoint; every field the
projection in `get-github-issue.ts` lines 65–94 touches, with optional
upstream fields modelled as `Option`. -/
structure RawIssue where
  number : Nat
  title : String
  state : String
  body : Option String
  body_text : Option String
  body_html : Option String
  created_at : String
  updated_at : String
  closed_at : Option String
  user : Option UserRef
  author_association : String
  assignees : Option (List UserRef)
  labels : Option (List LabelRef)
  milestone : Option MilestoneRef
  comments : Nat
  pull_request : Bool
  html_url : String
  reactions : Option Reactions
deriving DecidableEq

/-- The projection produced by `get_github_issue`. -/
structure FormattedIssue where
  number : Nat
  title : String
  state : String
  body : Option String
  body_text : Option String
  body_html : Option String
  created_at : String
  updated_at : String
  closed_at : Option String
  author : Option String
  author_association : String
  assignees : List String
  labels : List String
  milestone : Option String
  comments : Nat
  is_pull_request : Bool
  html_url : String
  reactions : Reactions
deriving DecidableEq

/-- The `formattedIssue` object of `get-github-issue.ts` lines 65–94:
optional chains default absent collections to `[]`, the milestone title to
`null` (note `milestone?.title || null` also nulls an empty title), and
every reaction count to `0`. -/
def formatGetIssue (i : RawIssue) : FormattedIssue :=
  { number := i.number
  , title := i.title
  , state := i.state
  , body := i.body
  , body_text := i.body_text
  , body_html := i.body_html
  , created_at := i.created_at
  , updated_at := i.updated_at
  , closed_at := i.closed_at
  , author := i.user.map (fun u => u.login)
  , author_association := i.author_association
  , assignees := (i.assignees.map (fun xs => xs.map (fun u => u.login))).getD []
  , labels := (i.labels.map (fun xs => xs.map (fun l => l.name))).getD []
  , milestone :=
      match i.milestone with
      | some m => if m.title = "" then none else some m.title
      | none => none
  , comments := i.comments
  , is_pull_request := i.pull_request
  , html_url := i.html_url
  , reactions :=
      { total_count := (i.reactions.map (fun r => r.total_count)).getD 0
      , plus_one := (i.reactions.map (fun r => r.plus_one)).getD 0
      , minus_one := (i.reactions.map (fun r => r.minus_one)).getD 0
      , laugh := (i.reactions.map (fun r => r.laugh)).getD 0
      , hooray := (i.reactions.map (fun r => r.hooray)).getD 0
      , confused := (i.reactions.map (fun r => r.confused)).getD 0
      , heart := (i.reactions.map (fun r => r.heart)).getD 0
      , rocket := (i.reactions.map (fun r => r.rocket)).getD 0
      , eyes := (i.reactions.map (fun r => r.eyes)).getD 0 } }

/-- Outcome of `get_github_issue`. -/
inductive GetIssueOut where
  | error (text : String)
  | success (f : FormattedIssue)
deriving DecidableEq

/-- `getGithubIssueHandler`: credential guard, then one GET request whose
payload is projected by `formatGetIssue`. -/
def getGithubIssueHandler (env : Env) (resp : HttpResult RawIssue) :
    GetIssueOut × Nat :=
  if envTokenTruthy env = false then
    (GetIssueOut.error configErrorText, 0)
  else
    match resp with
    | HttpResult.ok raw => (GetIssueOut.success (formatGetIssue raw), 1)
    | HttpResult.httpErr status msg =>
        (GetIssueOut.error ("Error getting issue: "
          ++ toString status ++ " - " ++ msg), 1)
    | HttpResult.exn msg => (GetIssueOut.error ("Error getting issue: " ++ msg), 1)

/-! ### Helper lemmas about the pagination loop on an honest server -/

theorem capHit_eq_true_iff (cap : Option Nat) (len : Nat) :
    capHit cap len = true ↔ ∃ c, cap = some c ∧ c ≠ 0 ∧ c ≤ len := by
  cases cap with
  | none => simp [capHit]
  | some c => simp [capHit]

theorem capHit_eq_false_iff (cap : Option Nat) (len : Nat) :
    capHit cap len = false ↔ ∀ c, cap = some c → c ≠ 0 → len < c := by
  cases cap with
  | none => simp [capHit]
  | some c =>
    simp only [capHit, Bool.and_eq_false_iff, decide_eq_false_iff_not, not_not,
      Option.some.injEq]
    constructor
    · rintro (h | h) c' hc'
      · subst hc'; exact fun hne => absurd h hne
      · subst hc'; intro _; omega
    · intro h
      by_cases hc0 : c = 0
      · exact Or.inl hc0
      · exact Or.inr (by have := h c rfl hc0; omega)

theorem updateTotal_none (total : Option Nat) (rpp : Nat) :
    updateTotal total none rpp = total := by
  cases total <;> rfl

/-- Processing the final page of an honest server (no `rel="next"`, all
remaining items on the page): the loop stops, truncating iff an active cap
has been reached. -/
theorem runLoop_lastPage (s : Nat) (cap : Option Nat) (acc rem : List Issue)
    (total : Option Nat) (hm : Bool)
    (hpre : ∀ c, cap = some c → c ≠ 0 → acc.length < c) :
    ((∀ c, cap = some c → c = 0 ∨ acc.length + rem.length < c) →
      ∃ tot r, runIssuesLoop cap s acc total hm [FetchResult.ok rem false none] =
        LoopResult.finished (acc ++ rem) false tot r) ∧
    (∀ c, cap = some c → c ≠ 0 → c ≤ acc.length + rem.length →
      ∃ tot, runIssuesLoop cap s acc total hm [FetchResult.ok rem false none] =
        LoopResult.finished (acc ++ rem.take (c - acc.length)) true tot
          StopReason.capReached) := by
  by_cases hcap : capHit cap (acc ++ rem).length = true
  · obtain ⟨c, hc, hc0, hcle⟩ := (capHit_eq_true_iff _ _).mp hcap
    constructor
    · intro hno
      exfalso
      rcases hno c hc with h0 | hlt
      · exact hc0 h0
      · simp [List.length_append] at hcle; omega
    · intro c' hc' hc'0 _
      have hcc : c' = c := by rw [hc] at hc'; exact (Option.some.injEq _ _ ▸ hc').symm
      subst hcc
      refine ⟨updateTotal total none s, ?_⟩
      have hacc : acc.length ≤ c' := le_of_lt (hpre c' hc hc'0)
      have htake : (acc ++ rem).take c' = acc ++ rem.take (c' - acc.length) := by
        rw [List.take_append_eq_append_take, List.take_of_length_le hacc]
      simp only [runIssuesLoop, hcap, if_true]
      rw [hc]
      simp only [capValue, Option.getD_some]
      rw [htake]
  · have hcap' : capHit cap (acc ++ rem).length = false := by
      simpa using hcap
    constructor
    · intro _
      refine ⟨updateTotal total none s, StopReason.noNext, ?_⟩
      simp only [runIssuesLoop, hcap', Bool.false_eq_true, if_false, if_true]
    · intro c hc hc0 hcle
      exfalso
      have := (capHit_eq_false_iff _ _).mp hcap' c hc hc0
      simp [List.length_append] at this; omega

/-- Main invariant of the pagination loop over an honest server trace:
with the cap not yet reached, either no active cap can ever be reached and
the loop collects every remaining item with `hasMore = false`, or the
active cap is reachable and the loop stops at exactly the cap with
`hasMore = true`. -/
theorem runLoop_honest (s : Nat) (hs : 1 ≤ s) :
    ∀ (fuel : Nat) (rem acc : List Issue) (total : Option Nat) (hm : Bool)
      (cap : Option Nat),
      rem.length ≤ fuel →
      (∀ c, cap = some c → c ≠ 0 → acc.length < c) →
      ((∀ c, cap = some c → c = 0 ∨ acc.length + rem.length < c) →
        ∃ tot r, runIssuesLoop cap s acc total hm (serverTraceAux s fuel rem) =
          LoopResult.finished (acc ++ rem) false tot r) ∧
      (∀ c, cap = some c → c ≠ 0 → c ≤ acc.length + rem.length →
        ∃ tot, runIssuesLoop cap s acc total hm (serverTraceAux s fuel rem) =
          LoopResult.finished (acc ++ rem.take (c - acc.length)) true tot
            StopReason.capReached) := by
  intro fuel
  induction fuel with
  | zero =>
    intro rem acc total hm cap hfuel hpre
    have hrem : rem = [] := List.eq_nil_of_length_eq_zero (Nat.le_zero.mp hfuel)
    subst hrem
    have h := runLoop_lastPage s cap acc [] total hm hpre
    simpa only [serverTraceAux, List.take_nil] using h
  | succ fuel ih =>
    intro rem acc total hm cap hfuel hpre
    by_cases hle : rem.length ≤ s
    · have h := runLoop_lastPage s cap acc rem total hm hpre
      have htr : serverTraceAux s (fuel + 1) rem = [FetchResult.ok rem false none] := by
        simp only [serverTraceAux, if_pos hle, List.take_of_length_le hle]
      rw [htr]
      exact h
    · push_neg at hle
      have hsr : s ≤ rem.length := le_of_lt hle
      have htr : serverTraceAux s (fuel + 1) rem =
          FetchResult.ok (rem.take s) true none :: serverTraceAux s fuel (rem.drop s) := by
        simp only [serverTraceAux, if_neg (by omega : ¬ rem.length ≤ s)]
      rw [htr]
      have hlen2 : (acc ++ rem.take s).length = acc.length + s := by
        simp [List.length_append, List.length_take, Nat.min_eq_left hsr]
      by_cases hcap : capHit cap ((acc ++ rem.take s).length) = true
      · obtain ⟨c, hc, hc0, hcle⟩ := (capHit_eq_true_iff _ _).mp hcap
        rw [hlen2] at hcle
        constructor
        · intro hno
          exfalso
          rcases hno c hc with h0 | hlt
          · exact hc0 h0
          · omega
        · intro c' hc' hc'0 _
          have hcc : c' = c := by rw [hc] at hc'; exact (Option.some.injEq _ _ ▸ hc').symm
          subst hcc
          refine ⟨updateTotal total none s, ?_⟩
          have hacc : acc.length ≤ c' := le_of_lt (hpre c' hc hc'0)
          have hcs : c' - acc.length ≤ s := by omega
          have htake : (acc ++ rem.take s).take c' = acc ++ rem.take (c' - acc.length) := by
            rw [List.take_append_eq_append_take, List.take_of_length_le hacc,
              List.take_take, Nat.min_eq_left hcs]
          simp only [runIssuesLoop, hcap, if_true]
          rw [hc]
          simp only [capValue, Option.getD_some]
          rw [htake]
      · have hcap' : capHit cap ((acc ++ rem.take s).length) = false := by
          simpa using hcap
        have hpre2 : ∀ c, cap = some c → c ≠ 0 → (acc ++ rem.take s).length < c :=
          (capHit_eq_false_iff _ _).mp hcap'
        have hfuel2 : (rem.drop s).length ≤ fuel := by
          rw [List.length_drop]; omega
        have hstep : runIssuesLoop cap s acc total hm
            (FetchResult.ok (rem.take s) true none :: serverTraceAux s fuel (rem.drop s)) =
            runIssuesLoop cap s (acc ++ rem.take s) (updateTotal total none s) true
              (serverTraceAux s fuel (rem.drop s)) := by
          have hfull : ¬ (rem.take s).length < s := by
            simp [List.length_take, Nat.min_eq_left hsr]
          simp only [runIssuesLoop, hcap', Bool.false_eq_true, if_false,
            if_neg (by decide : ¬ (true = false)), if_neg hfull]
        rw [hstep]
        obtain ⟨ih1, ih2⟩ := ih (rem.drop s) (acc ++ rem.take s)
          (updateTotal total none s) true cap hfuel2 hpre2
        constructor
        · intro hno
          have hno2 : ∀ c, cap = some c →
              c = 0 ∨ (acc ++ rem.take s).length + (rem.drop s).length < c := by
            intro c hc
            rcases hno c hc with h0 | hlt
            · exact Or.inl h0
            · right
              rw [hlen2, List.length_drop]
              omega
          obtain ⟨tot, r, hrun⟩ := ih1 hno2
          refine ⟨tot, r, ?_⟩
          have hlist : (acc ++ rem.take s) ++ rem.drop s = acc ++ rem := by
            rw [List.append_assoc, List.take_append_drop]
          rw [← hlist]
          exact hrun
        · intro c hc hc0 hcle
          have hcle2 : c ≤ (acc ++ rem.take s).length + (rem.drop s).length := by
            rw [hlen2, List.length_drop]
            omega
          obtain ⟨tot, hrun⟩ := ih2 c hc hc0 hcle2
          refine ⟨tot, ?_⟩
          have hsc : s ≤ c - acc.length := by
            have := hpre2 c hc hc0
            rw [hlen2] at this
            omega
          have hlist : (acc ++ rem.take s) ++ (rem.drop s).take (c - (acc ++ rem.take s).length)
              = acc ++ rem.take (c - acc.length) := by
            rw [hlen2, List.append_assoc]
            have harith : c - (acc.length + s) = c - acc.length - s := by omega
            rw [harith, ← List.take_add,
              (by omega : s + (c - acc.length - s) = c - acc.length)]
          rw [← hlist]
          exact hrun

/-- Loop-level consequence of `runLoop_honest` for a positive cap `C`: the
aggregation is exactly `items.take C`, `hasMore` is forced to `true`
exactly when the cap is reached. -/
theorem runLoop_cap_result (s C : Nat) (items : List Issue) (hs : 1 ≤ s) (hC : 1 ≤ C) :
    ∃ hm tot reason,
      runIssuesLoop (some C) s [] none false (serverTrace s items) =
        LoopResult.finished (items.take C) hm tot reason ∧
      (C ≤ items.length → hm = true ∧ reason = StopReason.capReached) ∧
      (items.length < C → hm = false) := by
  have hpre : ∀ c, (some C : Option Nat) = some c → c ≠ 0 →
      ([] : List Issue).length < c := by
    intro c hc _
    injection hc with hh
    subst hh
    simpa using hC
  have h := runLoop_honest s hs items.length items [] none false (some C)
    (le_refl _) hpre
  by_cases hcase : C ≤ items.length
  · obtain ⟨tot, hrun⟩ := h.2 C rfl (by omega) (by simpa using hcase)
    refine ⟨true, tot, StopReason.capReached, ?_, fun _ => ⟨rfl, rfl⟩, fun hlt => by omega⟩
    simpa [serverTrace] using hrun
  · push_neg at hcase
    obtain ⟨tot, r, hrun⟩ := h.1 (by
      intro c hc
      injection hc with hh
      subst hh
      right
      simpa using hcase)
    refine ⟨false, tot, r, ?_, fun hle => by omega, fun _ => rfl⟩
    rw [List.take_of_length_le (le_of_lt hcase)]
    simpa [serverTrace] using hrun

/-- Unfolding of the issues handler on a successful loop run. -/
theorem listIssuesHandler_success (env : Env) (perPage : Nat) (cap : Option Nat)
    (trace : List FetchResult) (issues : List Issue) (hm : Bool) (tot : Option Nat)
    (reason : StopReason) (henv : envTokenTruthy env = true)
    (hrun : runIssuesLoop cap (Nat.min perPage 100) [] none false trace =
      LoopResult.finished issues hm tot reason) :
    (listGithubIssuesHandler env perPage cap trace).1 =
      ListIssuesOut.success issues hm tot reason
        (String.intercalate "\n\n" (issues.map formatIssue)) := by
  simp only [listGithubIssuesHandler, henv, Bool.true_eq_false, if_false, hrun]

/-- C1 (amended: the cap must be positive, since the source tests the cap
with JavaScript truthiness and a cap of `0` is inert).  For every positive
requested cap `C`, every page size and every honest server holding
`items`: the operation succeeds with aggregation exactly `items.take C`
(hence length `min C items.length`), and `hasMore` is `true` whenever the
cap is reached (in particular whenever `C ≤` the available count; on the
honest server's final page no `rel="next"` is present, so the remaining
`hasMore` sources are covered), and `hasMore` is `false` when fewer than
`C` items exist. -/
theorem c1_cap_min_result (env : Env) (perPage C : Nat) (items : List Issue)
    (henv : envTokenTruthy env = true) (hpp : 1 ≤ perPage) (hC : 1 ≤ C) :
    ∃ hm tot reason,
      (listGithubIssuesHandler env perPage (some C)
        (serverTrace (Nat.min perPage 100) items)).1 =
        ListIssuesOut.success (items.take C) hm tot reason
          (String.intercalate "\n\n" ((items.take C).map formatIssue)) ∧
      (items.take C).length = Nat.min C items.length ∧
      (C ≤ items.length → hm = true ∧ reason = StopReason.capReached) ∧
      (items.length < C → hm = false) := by
  have hs : 1 ≤ Nat.min perPage 100 := Nat.le_min.mpr ⟨hpp, by omega⟩
  obtain ⟨hm, tot, reason, hrun, hcap, hnocap⟩ :=
    runLoop_cap_result (Nat.min perPage 100) C items hs hC
  exact ⟨hm, tot, reason,
    listIssuesHandler_success env perPage (some C) _ _ hm tot reason henv hrun,
    List.length_take .., hcap, hnocap⟩

/-- A fixed issue used for concrete runs. -/
def sampleIssue (n : Nat) : Issue :=
  { number := n, title := "t", state := "open", body := none }

/-- A sample environment with a set credential. -/
def sampleEnv : Env := { GITHUB_AUTH_TOKEN := some "tok" }

/-- Witness for `c1_cap_min_result`: three items, page size 2, cap 2. -/
theorem c1_cap_min_result_witness :
    ∃ hm tot reason,
      (listGithubIssuesHandler sampleEnv 2 (some 2)
        (serverTrace (Nat.min 2 100) [sampleIssue 1, sampleIssue 2, sampleIssue 3])).1 =
        ListIssuesOut.success ([sampleIssue 1, sampleIssue 2, sampleIssue 3].take 2) hm tot reason
          (String.intercalate "\n\n"
            (([sampleIssue 1, sampleIssue 2, sampleIssue 3].take 2).map formatIssue)) ∧
      ([sampleIssue 1, sampleIssue 2, sampleIssue 3].take 2).length =
        Nat.min 2 [sampleIssue 1, sampleIssue 2, sampleIssue 3].length ∧
      (2 ≤ [sampleIssue 1, sampleIssue 2, sampleIssue 3].length →
        hm = true ∧ reason = StopReason.capReached) ∧
      ([sampleIssue 1, sampleIssue 2, sampleIssue 3].length < 2 → hm = false) :=
  c1_cap_min_result sampleEnv 2 2 [sampleIssue 1, sampleIssue 2, sampleIssue 3]
    (by decide) (by decide) (by decide)

/-- C1 counterexample: a requested cap of `0` is a legal `max_results`
value, yet the handler ignores it (JavaScript truthiness of
`max_results && ...`): with two available items the aggregation has length
`2`, not `min 0 2 = 0`, and no truncation happens. -/
theorem c1_cap_zero_counterexample :
    runIssuesLoop (some 0) 30 [] none false
        (serverTrace 30 [sampleIssue 1, sampleIssue 2]) =
      LoopResult.finished [sampleIssue 1, sampleIssue 2] false none StopReason.noNext ∧
    ¬ ([sampleIssue 1, sampleIssue 2].length = Nat.min 0 2) := by
  constructor
  · decide
  · decide

/-- C5: on every honest finite server trace, the pagination loop of
`list_github_issues` terminates in a normal `finished` state — it never
runs off the trace nor fails — and the recorded stop reason is one of the
three conditions: cap reached, no `rel="next"` relation, or a page shorter
than the effective page size. -/
theorem c5_loop_terminates (items : List Issue) (s : Nat) (cap : Option Nat)
    (hs : 1 ≤ s) :
    ∃ res hm tot reason,
      runIssuesLoop cap s [] none false (serverTrace s items) =
        LoopResult.finished res hm tot reason ∧
      (reason = StopReason.capReached ∨ reason = StopReason.noNext ∨
        reason = StopReason.shortPage) := by
  have htri : ∀ r : StopReason, r = StopReason.capReached ∨ r = StopReason.noNext ∨
      r = StopReason.shortPage := by
    intro r
    cases r
    · exact Or.inl rfl
    · exact Or.inr (Or.inl rfl)
    · exact Or.inr (Or.inr rfl)
  match hcap : cap with
  | none =>
    have h := runLoop_honest s hs items.length items [] none false none (le_refl _)
      (by intro c hc; cases hc)
    obtain ⟨tot, r, hrun⟩ := h.1 (by intro c hc; cases hc)
    exact ⟨items, false, tot, r, by simpa [serverTrace] using hrun, htri r⟩
  | some c =>
    by_cases hc0 : c = 0
    · subst hc0
      have h := runLoop_honest s hs items.length items [] none false (some 0) (le_refl _)
        (by intro c hc hc0; injection hc with hh; omega)
      obtain ⟨tot, r, hrun⟩ := h.1 (by intro c hc; injection hc with hh; omega)
      exact ⟨items, false, tot, r, by simpa [serverTrace] using hrun, htri r⟩
    · obtain ⟨hm, tot, reason, hrun, _, _⟩ :=
        runLoop_cap_result s c items hs (by omega)
      exact ⟨items.take c, hm, tot, reason, hrun, htri reason⟩

/-- Witness for `c5_loop_terminates`: 3 items, page size 2, cap 25. -/
theorem c5_loop_terminates_witness :
    ∃ res hm tot reason,
      runIssuesLoop (some 25) 2 [] none false
          (serverTrace 2 [sampleIssue 1, sampleIssue 2, sampleIssue 3]) =
        LoopResult.finished res hm tot reason ∧
      (reason = StopReason.capReached ∨ reason = StopReason.noNext ∨
        reason = StopReason.shortPage) :=
  c5_loop_terminates [sampleIssue 1, sampleIssue 2, sampleIssue 3] 2 (some 25) (by decide)

/-- An honest server trace always holds at least one page response. -/
theorem serverTraceAux_length_pos (s fuel : Nat) (rem : List Issue) :
    1 ≤ (serverTraceAux s fuel rem).length := by
  cases fuel with
  | zero => simp [serverTraceAux]
  | succ fuel =>
    by_cases h : rem.length ≤ s
    · simp [serverTraceAux, h]
    · simp [serverTraceAux, h]

/-- A data set larger than one page produces a trace of at least two pages. -/
theorem serverTrace_multi_page (s : Nat) (items : List Issue)
    (hmulti : s < items.length) :
    2 ≤ (serverTrace s items).length := by
  unfold serverTrace
  obtain ⟨n, hn⟩ : ∃ n, items.length = n + 1 := ⟨items.length - 1, by omega⟩
  rw [hn]
  simp only [serverTraceAux]
  rw [if_neg (by omega : ¬ items.length ≤ s)]
  simp only [List.length_cons]
  have := serverTraceAux_length_pos s n (items.drop s)
  omega

/-- Sample repository and organisation records for concrete runs. -/
def sampleRepo : Repo := { name := "r" }

/-- Sample organisation record. -/
def sampleOrg : Org := { login := "o", description := none }

/-- C2 counterexample: `list_github_repositories` and
`get_github_organisations` do NOT follow the paginator algorithm.  On a
multi-page data set (the fetched page's `Link` header carries
`rel="next"`), each handler issues exactly one request and returns only
that single page's items, never aggregating a second page. -/
theorem c2_single_fetch_counterexample :
    listGithubRepositoriesHandler sampleEnv 2 1
        (HttpResult.ok { repos := [sampleRepo, sampleRepo], next := true }) =
      (ReposOut.success [sampleRepo, sampleRepo] true 1, [Request.mk 1 2]) ∧
    getGithubOrganisationsHandler sampleEnv 2 1
        (HttpResult.ok { orgs := [sampleOrg, sampleOrg], next := true }) =
      (OrgsOut.success [sampleOrg, sampleOrg] true 1, [Request.mk 1 2]) := by
  constructor
  · decide
  · decide

/-- C2 (amended): only `list_github_issues` follows the paginator
algorithm — on every multi-page honest data set it aggregates every item,
drawing from at least two fetched pages — while
`list_github_repositories` and `get_github_organisations` issue exactly
one request for the caller-supplied page, whatever the response signals. -/
theorem c2_pagination_split :
    (∀ (items : List Issue) (s : Nat), 1 ≤ s → s < items.length →
      (∃ tot r, runIssuesLoop none s [] none false (serverTrace s items) =
        LoopResult.finished items false tot r) ∧
      2 ≤ (serverTrace s items).length) ∧
    (∀ (env : Env) (perPage page : Nat) (resp : HttpResult RepoPage),
      envTokenTruthy env = true →
      (listGithubRepositoriesHandler env perPage page resp).2 = [Request.mk page perPage]) ∧
    (∀ (env : Env) (perPage page : Nat) (resp : HttpResult OrgPage),
      envTokenTruthy env = true →
      (getGithubOrganisationsHandler env perPage page resp).2 = [Request.mk page perPage]) := by
  refine ⟨?_, ?_, ?_⟩
  · intro items s hs hmulti
    have h := runLoop_honest s hs items.length items [] none false none (le_refl _)
      (by intro c hc; cases hc)
    obtain ⟨tot, r, hrun⟩ := h.1 (by intro c hc; cases hc)
    exact ⟨⟨tot, r, by simpa [serverTrace] using hrun⟩, serverTrace_multi_page s items hmulti⟩
  · intro env perPage page resp henv
    cases resp <;> simp [listGithubRepositoriesHandler, henv]
  · intro env perPage page resp henv
    cases resp <;> simp [getGithubOrganisationsHandler, henv]

/-- Witness for `c2_pagination_split`: four items with page size 3 make the
issues loop aggregate across two pages; the repos handler issues exactly
one request. -/
theorem c2_pagination_split_witness :
    (∃ tot r, runIssuesLoop none 3 [] none false
        (serverTrace 3 [sampleIssue 1, sampleIssue 2, sampleIssue 3, sampleIssue 4]) =
      LoopResult.finished [sampleIssue 1, sampleIssue 2, sampleIssue 3, sampleIssue 4]
        false tot r) ∧
    2 ≤ (serverTrace 3 [sampleIssue 1, sampleIssue 2, sampleIssue 3, sampleIssue 4]).length :=
  c2_pagination_split.1 [sampleIssue 1, sampleIssue 2, sampleIssue 3, sampleIssue 4] 3
    (by decide) (by decide)

/-- The pagination loop runs every full-with-next page and then aborts on
the first non-ok response, returning exactly that failure. -/
theorem runLoop_aborts (s : Nat) (cap : Option Nat) (bad : FetchResult)
    (failRes : LoopResult)
    (hbad : ∀ (acc : List Issue) (total : Option Nat) (hm : Bool)
      (rest : List FetchResult),
      runIssuesLoop cap s acc total hm (bad :: rest) = failRes) :
    ∀ (goodPages : List (List Issue)) (acc : List Issue) (total : Option Nat)
      (hm : Bool) (rest : List FetchResult),
      (∀ pg ∈ goodPages, pg.length = s) →
      (∀ c, cap = some c → c = 0 ∨ acc.length + goodPages.length * s < c) →
      runIssuesLoop cap s acc total hm
        (goodPages.map (fun pg => FetchResult.ok pg true none) ++ bad :: rest) =
        failRes := by
  intro goodPages
  induction goodPages with
  | nil =>
    intro acc total hm rest _ _
    simpa using hbad acc total hm rest
  | cons pg gps ih =>
    intro acc total hm rest hfull hcap
    have hpg : pg.length = s := hfull pg (by simp)
    have hlen2 : (acc ++ pg).length = acc.length + s := by
      simp [List.length_append, hpg]
    have hcap2 : capHit cap ((acc ++ pg).length) = false := by
      rw [capHit_eq_false_iff]
      intro c hc hc0
      rcases hcap c hc with h0 | hlt
      · exact absurd h0 hc0
      · rw [hlen2]
        simp [List.length_cons] at hlt
        have hmul : (gps.length + 1) * s = gps.length * s + s := by ring
        omega
    have hfull2 : ¬ pg.length < s := by omega
    simp only [List.map_cons, List.cons_append, runIssuesLoop, hcap2,
      Bool.false_eq_true, if_false, if_neg (by decide : ¬ (true = false)),
      if_neg hfull2]
    apply ih
    · intro pg2 hpg2
      exact hfull pg2 (by simp [hpg2])
    · intro c hc
      rcases hcap c hc with h0 | hlt
      · exact Or.inl h0
      · right
        rw [hlen2]
        simp [List.length_cons] at hlt
        have : (gps.length + 1) * s = gps.length * s + s := by ring
        omega

/-- C4: if any page fetch of `list_github_issues` fails — a non-ok HTTP
status on the first or any later page, or a thrown transport error — the
operation returns only the error result (status and upstream message for
the HTTP case), and the items aggregated from the earlier pages are
discarded: the returned value is an `error`, which carries no items. -/
theorem c4_failure_aborts (env : Env) (perPage : Nat) (maxResults : Option Nat)
    (goodPages : List (List Issue)) (status : Nat) (msg : String)
    (rest : List FetchResult) (henv : envTokenTruthy env = true)
    (hfull : ∀ pg ∈ goodPages, pg.length = Nat.min perPage 100)
    (hcap : ∀ c, maxResults = some c →
      c = 0 ∨ goodPages.length * Nat.min perPage 100 < c) :
    (listGithubIssuesHandler env perPage maxResults
        (goodPages.map (fun pg => FetchResult.ok pg true none) ++
          FetchResult.httpErr status msg :: rest)).1 =
      ListIssuesOut.error (listIssuesErrorText status msg) ∧
    (listGithubIssuesHandler env perPage maxResults
        (goodPages.map (fun pg => FetchResult.ok pg true none) ++
          FetchResult.exn msg :: rest)).1 =
      ListIssuesOut.error ("Error listing issues: " ++ msg) := by
  have hcap' : ∀ c, maxResults = some c →
      c = 0 ∨ ([] : List Issue).length + goodPages.length * Nat.min perPage 100 < c := by
    intro c hc
    simpa using hcap c hc
  constructor
  · have hrun := runLoop_aborts (Nat.min perPage 100) maxResults
      (FetchResult.httpErr status msg) (LoopResult.failure status msg)
      (fun _ _ _ _ => rfl) goodPages [] none false rest hfull hcap'
    simp only [listGithubIssuesHandler, henv, Bool.true_eq_false, if_false, hrun]
  · have hrun := runLoop_aborts (Nat.min perPage 100) maxResults
      (FetchResult.exn msg) (LoopResult.crashed msg)
      (fun _ _ _ _ => rfl) goodPages [] none false rest hfull hcap'
    simp only [listGithubIssuesHandler, henv, Bool.true_eq_false, if_false, hrun]

/-- Witness for `c4_failure_aborts`: one full first page, then a 404 on
page two. -/
theorem c4_failure_aborts_witness :
    (listGithubIssuesHandler sampleEnv 2 none
        ([[sampleIssue 1, sampleIssue 2]].map (fun pg => FetchResult.ok pg true none) ++
          FetchResult.httpErr 404 "Not Found" :: [])).1 =
      ListIssuesOut.error (listIssuesErrorText 404 "Not Found") ∧
    (listGithubIssuesHandler sampleEnv 2 none
        ([[sampleIssue 1, sampleIssue 2]].map (fun pg => FetchResult.ok pg true none) ++
          FetchResult.exn "Not Found" :: [])).1 =
      ListIssuesOut.error ("Error listing issues: " ++ "Not Found") :=
  c4_failure_aborts sampleEnv 2 none [[sampleIssue 1, sampleIssue 2]] 404 "Not Found" []
    (by decide) (by decide) (by intro c hc; cases hc)

/-- C6: the `per_page` value every listing request carries.
`list_github_issues` sends `Math.min(per_page, 100)` for every requested
value; `list_github_repositories` and `get_github_organisations` send the
requested value verbatim, which their zod schema (`min(1).max(100)`)
confines to `1..100`, so for every schema-valid request the value sent
equals `min(requested, 100)` and never exceeds `100`. -/
theorem c6_per_page_clamped :
    (∀ (env : Env) (perPage : Nat) (maxResults : Option Nat)
      (trace : List FetchResult),
      ∀ r ∈ (listGithubIssuesHandler env perPage maxResults trace).2,
        r.perPage = Nat.min perPage 100 ∧ r.perPage ≤ 100) ∧
    (∀ (env : Env) (perPage page : Nat) (resp : HttpResult RepoPage),
      perPage ≤ 100 →
      ∀ r ∈ (listGithubRepositoriesHandler env perPage page resp).2,
        r.perPage = Nat.min perPage 100 ∧ r.perPage ≤ 100) ∧
    (∀ (env : Env) (perPage page : Nat) (resp : HttpResult OrgPage),
      perPage ≤ 100 →
      ∀ r ∈ (getGithubOrganisationsHandler env perPage page resp).2,
        r.perPage = Nat.min perPage 100 ∧ r.perPage ≤ 100) := by
  refine ⟨?_, ?_, ?_⟩
  · intro env perPage maxResults trace r hr
    by_cases henv : envTokenTruthy env = false
    · simp [listGithubIssuesHandler, henv] at hr
    · have heq : envTokenTruthy env = true := by
        revert henv; cases envTokenTruthy env <;> simp
      simp only [listGithubIssuesHandler, heq, Bool.true_eq_false, if_false] at hr
      have hmem : r ∈ (List.range
          (pagesConsumed maxResults (Nat.min perPage 100) 0 trace)).map
          (fun i => Request.mk (i + 1) (Nat.min perPage 100)) := by
        split at hr <;> simpa using hr
      obtain ⟨i, _, hi⟩ := List.mem_map.mp hmem
      subst hi
      exact ⟨rfl, Nat.min_le_right _ _⟩
  · intro env perPage page resp hpp r hr
    by_cases henv : envTokenTruthy env = false
    · simp [listGithubRepositoriesHandler, henv] at hr
    · have heq : envTokenTruthy env = true := by
        revert henv; cases envTokenTruthy env <;> simp
      have : r = Request.mk page perPage := by
        cases resp <;> simpa [listGithubRepositoriesHandler, heq] using hr
      subst this
      exact ⟨(Nat.min_eq_left hpp).symm, hpp⟩
  · intro env perPage page resp hpp r hr
    by_cases henv : envTokenTruthy env = false
    · simp [getGithubOrganisationsHandler, henv] at hr
    · have heq : envTokenTruthy env = true := by
        revert henv; cases envTokenTruthy env <;> simp
      have : r = Request.mk page perPage := by
        cases resp <;> simpa [getGithubOrganisationsHandler, heq] using hr
      subst this
      exact ⟨(Nat.min_eq_left hpp).symm, hpp⟩

/-- Witness for `c6_per_page_clamped`: a repository request at
`per_page = 2` carries `per_page = min 2 100 ≤ 100`. -/
theorem c6_per_page_clamped_witness :
    (Request.mk 1 2).perPage = Nat.min 2 100 ∧ (Request.mk 1 2).perPage ≤ 100 :=
  c6_per_page_clamped.2.1 sampleEnv 2 1
    (HttpResult.ok { repos := [], next := false }) (by decide)
    (Request.mk 1 2) (by decide)

/-- Lookup distributes over payload concatenation. -/
theorem lookup_append (k : String) (l₁ l₂ : List (String × JVal)) :
    List.lookup k (l₁ ++ l₂) = (List.lookup k l₁).or (List.lookup k l₂) := by
  induction l₁ with
  | nil => simp
  | cons kv l ih =>
    obtain ⟨k1, v1⟩ := kv
    by_cases hk : (k == k1) = true
    · simp [List.lookup, hk]
    · have hk' : (k == k1) = false := by simpa using hk
      simp [List.lookup, hk', ih]

theorem lookup_strField_self (key : String) (v : Option String) :
    List.lookup key (strField key v) = v.map JVal.str := by
  rcases v with _ | x <;> simp [strField, List.lookup]

theorem lookup_strField_ne (k key : String) (v : Option String) (h : ¬ k = key) :
    List.lookup k (strField key v) = none := by
  have hb : (k == key) = false := by simpa using h
  rcases v with _ | x <;> simp [strField, List.lookup, hb]

theorem lookup_arrField_self (key : String) (v : Option (List String)) :
    List.lookup key (arrField key v) = v.map JVal.arr := by
  rcases v with _ | x <;> simp [arrField, List.lookup]

theorem lookup_arrField_ne (k key : String) (v : Option (List String)) (h : ¬ k = key) :
    List.lookup k (arrField key v) = none := by
  have hb : (k == key) = false := by simpa using h
  rcases v with _ | x <;> simp [arrField, List.lookup, hb]

theorem lookup_stateReasonField_self (sr st : Option String) :
    List.lookup "state_reason" (stateReasonField sr st) =
      match sr with
      | some r => if st = some "closed" then some (JVal.str r) else none
      | none => none := by
  rcases sr with _ | r
  · simp [stateReasonField]
  · by_cases hst : st = some "closed" <;> simp [stateReasonField, hst, List.lookup]

theorem lookup_stateReasonField_ne (k : String) (sr st : Option String)
    (h : ¬ k = "state_reason") :
    List.lookup k (stateReasonField sr st) = none := by
  have hb : (k == "state_reason") = false := by simpa using h
  rcases sr with _ | r
  · simp [stateReasonField]
  · by_cases hst : st = some "closed" <;> simp [stateReasonField, hst, List.lookup, hb]

theorem lookup_milestoneField_self (m : Option (Option Nat)) :
    List.lookup "milestone" (milestoneField m) =
      match m with
      | some (some n) => some (JVal.num n)
      | some none => some JVal.null
      | none => none := by
  rcases m with _ | (_ | n) <;> simp [milestoneField, List.lookup]

theorem lookup_milestoneField_ne (k : String) (m : Option (Option Nat))
    (h : ¬ k = "milestone") :
    List.lookup k (milestoneField m) = none := by
  have hb : (k == "milestone") = false := by simpa using h
  rcases m with _ | (_ | n) <;> simp [milestoneField, List.lookup, hb]

theorem lookup_truthyStrField_self (key : String) (v : Option String) :
    List.lookup key (truthyStrField key v) =
      match v with
      | some s => if s = "" then none else some (JVal.str s)
      | none => none := by
  rcases v with _ | x
  · simp [truthyStrField]
  · by_cases hx : x = "" <;> simp [truthyStrField, hx, List.lookup]

theorem lookup_truthyStrField_ne (k key : String) (v : Option String)
    (h : ¬ k = key) :
    List.lookup k (truthyStrField key v) = none := by
  have hb : (k == key) = false := by simpa using h
  rcases v with _ | x
  · simp [truthyStrField]
  · by_cases hx : x = "" <;> simp [truthyStrField, hx, List.lookup, hb]

theorem lookup_truthyNumField_self (key : String) (v : Option Nat) :
    List.lookup key (truthyNumField key v) =
      match v with
      | some n => if n = 0 then none else some (JVal.num n)
      | none => none := by
  rcases v with _ | n
  · simp [truthyNumField]
  · by_cases hn : n = 0 <;> simp [truthyNumField, hn, List.lookup]

theorem lookup_truthyNumField_ne (k key : String) (v : Option Nat)
    (h : ¬ k = key) :
    List.lookup k (truthyNumField key v) = none := by
  have hb : (k == key) = false := by simpa using h
  rcases v with _ | n
  · simp [truthyNumField]
  · by_cases hn : n = 0 <;> simp [truthyNumField, hn, List.lookup, hb]

theorem update_lookup_title (p : UpdateParams) :
    List.lookup "title" (buildUpdatePayload p) = p.title.map JVal.str := by
  simp [buildUpdatePayload, lookup_append, lookup_strField_self,
    lookup_strField_ne, lookup_arrField_ne, lookup_stateReasonField_ne,
    lookup_milestoneField_ne]

theorem update_lookup_body (p : UpdateParams) :
    List.lookup "body" (buildUpdatePayload p) = p.body.map JVal.str := by
  simp [buildUpdatePayload, lookup_append, lookup_strField_self,
    lookup_strField_ne, lookup_arrField_ne, lookup_stateReasonField_ne,
    lookup_milestoneField_ne]

theorem update_lookup_state (p : UpdateParams) :
    List.lookup "state" (buildUpdatePayload p) = p.state.map JVal.str := by
  simp [buildUpdatePayload, lookup_append, lookup_strField_self,
    lookup_strField_ne, lookup_arrField_ne, lookup_stateReasonField_ne,
    lookup_milestoneField_ne]

theorem update_lookup_state_reason (p : UpdateParams) :
    List.lookup "state_reason" (buildUpdatePayload p) =
      match p.state_reason with
      | some r => if p.state = some "closed" then some (JVal.str r) else none
      | none => none := by
  simp [buildUpdatePayload, lookup_append, lookup_stateReasonField_self,
    lookup_strField_ne, lookup_arrField_ne, lookup_milestoneField_ne]

theorem update_lookup_labels (p : UpdateParams) :
    List.lookup "labels" (buildUpdatePayload p) = p.labels.map JVal.arr := by
  simp [buildUpdatePayload, lookup_append, lookup_arrField_self,
    lookup_strField_ne, lookup_arrField_ne, lookup_stateReasonField_ne,
    lookup_milestoneField_ne]

theorem update_lookup_assignees (p : UpdateParams) :
    List.lookup "assignees" (buildUpdatePayload p) = p.assignees.map JVal.arr := by
  simp [buildUpdatePayload, lookup_append, lookup_arrField_self,
    lookup_strField_ne, lookup_arrField_ne, lookup_stateReasonField_ne,
    lookup_milestoneField_ne]

theorem update_lookup_milestone (p : UpdateParams) :
    List.lookup "milestone" (buildUpdatePayload p) =
      match p.milestone with
      | some (some n) => some (JVal.num n)
      | some none => some JVal.null
      | none => none := by
  simp [buildUpdatePayload, lookup_append, lookup_milestoneField_self,
    lookup_strField_ne, lookup_arrField_ne, lookup_stateReasonField_ne]

theorem create_lookup_title (p : CreateParams) :
    List.lookup "title" (createPayload p) = some (JVal.str p.title) := by
  simp [createPayload, lookup_append, List.lookup]

theorem create_lookup_body (p : CreateParams) :
    List.lookup "body" (createPayload p) =
      match p.body with
      | some s => if s = "" then none else some (JVal.str s)
      | none => none := by
  simp [createPayload, lookup_append, List.lookup, lookup_truthyStrField_self,
    lookup_arrField_ne, lookup_truthyNumField_ne]

theorem create_lookup_assignees (p : CreateParams) :
    List.lookup "assignees" (createPayload p) = p.assignees.map JVal.arr := by
  simp [createPayload, lookup_append, List.lookup, lookup_truthyStrField_ne,
    lookup_arrField_self, lookup_arrField_ne, lookup_truthyNumField_ne]

theorem create_lookup_labels (p : CreateParams) :
    List.lookup "labels" (createPayload p) = p.labels.map JVal.arr := by
  simp [createPayload, lookup_append, List.lookup, lookup_truthyStrField_ne,
    lookup_arrField_self, lookup_arrField_ne, lookup_truthyNumField_ne]

theorem create_lookup_milestone (p : CreateParams) :
    List.lookup "milestone" (createPayload p) =
      match p.milestone with
      | some n => if n = 0 then none else some (JVal.num n)
      | none => none := by
  simp [createPayload, lookup_append, List.lookup, lookup_truthyStrField_ne,
    lookup_arrField_ne, lookup_truthyNumField_self]

/-- The update handler short-circuits on an empty payload: no-op report,
no request sent. -/
theorem updateHandler_noop (env : Env) (p : UpdateParams)
    (resp : HttpResult UpdatedIssue) (henv : envTokenTruthy env = true)
    (hemp : buildUpdatePayload p = []) :
    updateGithubIssueHandler env p resp =
      (UpdateOut.error "Error: No fields provided to update", []) := by
  simp [updateGithubIssueHandler, henv, hemp]

/-- C3 (amended): in the update payload, an omitted field is absent, a
supplied field is present with its value — EXCEPT `state_reason`, which is
present iff it is supplied AND `state` is supplied as `"closed"` —,
`milestone` supplied as explicit null is present as null, and an empty
payload is reported as a no-op with no request sent. -/
theorem c3_update_payload (p : UpdateParams) :
    (p.title = none → List.lookup "title" (buildUpdatePayload p) = none) ∧
    (∀ t, p.title = some t →
      List.lookup "title" (buildUpdatePayload p) = some (JVal.str t)) ∧
    (p.body = none → List.lookup "body" (buildUpdatePayload p) = none) ∧
    (∀ b, p.body = some b →
      List.lookup "body" (buildUpdatePayload p) = some (JVal.str b)) ∧
    (p.state = none → List.lookup "state" (buildUpdatePayload p) = none) ∧
    (∀ sv, p.state = some sv →
      List.lookup "state" (buildUpdatePayload p) = some (JVal.str sv)) ∧
    (p.state_reason = none →
      List.lookup "state_reason" (buildUpdatePayload p) = none) ∧
    (∀ rv, p.state_reason = some rv → p.state = some "closed" →
      List.lookup "state_reason" (buildUpdatePayload p) = some (JVal.str rv)) ∧
    (∀ rv, p.state_reason = some rv → ¬ p.state = some "closed" →
      List.lookup "state_reason" (buildUpdatePayload p) = none) ∧
    (p.labels = none → List.lookup "labels" (buildUpdatePayload p) = none) ∧
    (∀ ls, p.labels = some ls →
      List.lookup "labels" (buildUpdatePayload p) = some (JVal.arr ls)) ∧
    (p.assignees = none → List.lookup "assignees" (buildUpdatePayload p) = none) ∧
    (∀ xs, p.assignees = some xs →
      List.lookup "assignees" (buildUpdatePayload p) = some (JVal.arr xs)) ∧
    (p.milestone = none → List.lookup "milestone" (buildUpdatePayload p) = none) ∧
    (p.milestone = some none →
      List.lookup "milestone" (buildUpdatePayload p) = some JVal.null) ∧
    (∀ n, p.milestone = some (some n) →
      List.lookup "milestone" (buildUpdatePayload p) = some (JVal.num n)) ∧
    (∀ (env : Env) (resp : HttpResult UpdatedIssue),
      envTokenTruthy env = true → buildUpdatePayload p = [] →
      updateGithubIssueHandler env p resp =
        (UpdateOut.error "Error: No fields provided to update", [])) := by
  refine ⟨?_, ?_, ?_, ?_, ?_, ?_, ?_, ?_, ?_, ?_, ?_, ?_, ?_, ?_, ?_, ?_,
    fun env resp henv hemp => updateHandler_noop env _ resp henv hemp⟩ <;>
    simp only [update_lookup_title, update_lookup_body, update_lookup_state,
      update_lookup_state_reason, update_lookup_labels, update_lookup_assignees,
      update_lookup_milestone]
  · intro h; simp [h]
  · intro t h; simp [h]
  · intro h; simp [h]
  · intro b h; simp [h]
  · intro h; simp [h]
  · intro sv h; simp [h]
  · intro h; simp [h]
  · intro rv h hc; simp [h, hc]
  · intro rv h hc; simp [h, hc]
  · intro h; simp [h]
  · intro ls h; simp [h]
  · intro h; simp [h]
  · intro xs h; simp [h]
  · intro h; simp [h]
  · intro h; simp [h]
  · intro n h; simp [h]

/-- Witness for `c3_update_payload`: a fully-populated update and an
update carrying only `state_reason` (empty payload, no-op). -/
theorem c3_update_payload_witness :
    List.lookup "title"
      (buildUpdatePayload
        ⟨"o", "r", 1, some "T", none, some "closed", some "completed",
          none, none, some (some 3)⟩) = some (JVal.str "T") ∧
    List.lookup "state_reason"
      (buildUpdatePayload
        ⟨"o", "r", 1, some "T", none, some "closed", some "completed",
          none, none, some (some 3)⟩) = some (JVal.str "completed") ∧
    List.lookup "milestone"
      (buildUpdatePayload
        ⟨"o", "r", 1, none, none, none, none, none, none, some none⟩) =
      some JVal.null ∧
    updateGithubIssueHandler sampleEnv
      ⟨"o", "r", 1, none, none, none, none, none, none, none⟩
      (HttpResult.ok ⟨"x", "u"⟩) =
      (UpdateOut.error "Error: No fields provided to update", []) := by
  refine ⟨?_, ?_, ?_, ?_⟩
  · exact (c3_update_payload
      ⟨"o", "r", 1, some "T", none, some "closed", some "completed",
        none, none, some (some 3)⟩).2.1 "T" rfl
  · exact (c3_update_payload
      ⟨"o", "r", 1, some "T", none, some "closed", some "completed",
        none, none, some (some 3)⟩).2.2.2.2.2.2.2.1 "completed" rfl rfl
  · exact (c3_update_payload
      ⟨"o", "r", 1, none, none, none, none, none, none, some none⟩
      ).2.2.2.2.2.2.2.2.2.2.2.2.2.2.1 rfl
  · exact (c3_update_payload
      ⟨"o", "r", 1, none, none, none, none, none, none, none⟩
      ).2.2.2.2.2.2.2.2.2.2.2.2.2.2.2.2 sampleEnv (HttpResult.ok ⟨"x", "u"⟩)
      (by decide) (by decide)

/-- C3 counterexample: `state_reason` supplied with a value but `state`
not supplied as `"closed"` — the field is absent from the payload, the
payload is empty, and the operation reports the no-op error instead of
sending the supplied field. -/
theorem c3_state_reason_counterexample :
    List.lookup "state_reason"
      (buildUpdatePayload
        ⟨"o", "r", 1, none, none, none, some "completed", none, none, none⟩) = none ∧
    buildUpdatePayload
      ⟨"o", "r", 1, none, none, none, some "completed", none, none, none⟩ = [] ∧
    updateGithubIssueHandler sampleEnv
      ⟨"o", "r", 1, none, none, none, some "completed", none, none, none⟩
      (HttpResult.ok ⟨"x", "u"⟩) =
      (UpdateOut.error "Error: No fields provided to update", []) := by
  refine ⟨?_, ?_, ?_⟩ <;> decide

/-- C7 (amended): the create payload always contains `title`; the array
fields (`assignees`, `labels`) are present iff supplied (JavaScript
truthiness keeps arrays, empty or not); but `body` is present iff supplied
with a NON-EMPTY string and `milestone` iff supplied with a NON-ZERO
number, because the source tests them with `if (body)` / `if (milestone)`. -/
theorem c7_create_payload (p : CreateParams) :
    List.lookup "title" (createPayload p) = some (JVal.str p.title) ∧
    (p.body = none → List.lookup "body" (createPayload p) = none) ∧
    (p.body = some "" → List.lookup "body" (createPayload p) = none) ∧
    (∀ b, p.body = some b → ¬ b = "" →
      List.lookup "body" (createPayload p) = some (JVal.str b)) ∧
    (p.assignees = none → List.lookup "assignees" (createPayload p) = none) ∧
    (∀ xs, p.assignees = some xs →
      List.lookup "assignees" (createPayload p) = some (JVal.arr xs)) ∧
    (p.labels = none → List.lookup "labels" (createPayload p) = none) ∧
    (∀ ls, p.labels = some ls →
      List.lookup "labels" (createPayload p) = some (JVal.arr ls)) ∧
    (p.milestone = none → List.lookup "milestone" (createPayload p) = none) ∧
    (p.milestone = some 0 → List.lookup "milestone" (createPayload p) = none) ∧
    (∀ n, p.milestone = some n → ¬ n = 0 →
      List.lookup "milestone" (createPayload p) = some (JVal.num n)) := by
  refine ⟨create_lookup_title p, ?_, ?_, ?_, ?_, ?_, ?_, ?_, ?_, ?_, ?_⟩ <;>
    simp only [create_lookup_body, create_lookup_assignees, create_lookup_labels,
      create_lookup_milestone]
  · intro h; simp [h]
  · intro h; simp [h]
  · intro b h hb; simp [h, hb]
  · intro h; simp [h]
  · intro xs h; simp [h]
  · intro h; simp [h]
  · intro ls h; simp [h]
  · intro h; simp [h]
  · intro h; simp [h]
  · intro n h hn; simp [h, hn]

/-- Witness for `c7_create_payload`: a creation with non-empty body and
milestone 3. -/
theorem c7_create_payload_witness :
    List.lookup "title"
      (createPayload ⟨"o", "r", "T", some "B", some ["a"], none, some 3⟩) =
      some (JVal.str "T") ∧
    List.lookup "body"
      (createPayload ⟨"o", "r", "T", some "B", some ["a"], none, some 3⟩) =
      some (JVal.str "B") ∧
    List.lookup "milestone"
      (createPayload ⟨"o", "r", "T", some "B", some ["a"], none, some 3⟩) =
      some (JVal.num 3) := by
  refine ⟨?_, ?_, ?_⟩
  · exact (c7_create_payload ⟨"o", "r", "T", some "B", some ["a"], none, some 3⟩).1
  · exact (c7_create_payload
      ⟨"o", "r", "T", some "B", some ["a"], none, some 3⟩).2.2.2.1 "B" rfl (by decide)
  · exact (c7_create_payload
      ⟨"o", "r", "T", some "B", some ["a"], none, some 3⟩
      ).2.2.2.2.2.2.2.2.2.2 3 rfl (by decide)

/-- C7 counterexample: `body` supplied as the empty string is dropped from
the creation payload (JavaScript truthiness), refuting "included iff the
caller supplied that field"; likewise a supplied `milestone` of `0`. -/
theorem c7_truthiness_counterexample :
    List.lookup "body"
      (createPayload ⟨"o", "r", "T", some "", none, none, none⟩) = none ∧
    List.lookup "milestone"
      (createPayload ⟨"o", "r", "T", none, none, none, some 0⟩) = none := by
  refine ⟨?_, ?_⟩ <;> decide

/-- A raw single-issue response whose optional upstream fields are all
absent. -/
def sampleRawIssue : RawIssue :=
  { number := 1, title := "t", state := "open", body := none, body_text := none
  , body_html := none, created_at := "c", updated_at := "u", closed_at := none
  , user := none, author_association := "NONE", assignees := none, labels := none
  , milestone := none, comments := 0, pull_request := false, html_url := "url"
  , reactions := none }

/-- C8: the result formatters are total and deterministic.  The issue
listing projection renders number, title and state, and the body with
newlines flattened to spaces and truncated at 200 characters with an
ellipsis marker; an absent body is defaulted to `(No description)` rather
than faulting.  The single-issue projection likewise defaults every absent
optional field (empty assignee/label lists, null milestone, zero reaction
counts). -/
theorem c8_formatter_total (i : Issue) (raw : RawIssue) :
    formatIssue i = formatIssue i ∧
    (i.body = none →
      formatIssue i = "#" ++ toString i.number ++ ": " ++ i.title ++ " ["
        ++ i.state ++ "]" ++ "\n   " ++ "(No description)") ∧
    (∀ c ∈ (flattenNewlines (truncateBody (bodyText i.body))).data, ¬ c = '\n') ∧
    ((bodyText i.body).length > 200 →
      truncateBody (bodyText i.body) = (bodyText i.body).take 200 ++ "...") ∧
    formatGetIssue raw = formatGetIssue raw ∧
    (raw.assignees = none → (formatGetIssue raw).assignees = []) ∧
    (raw.labels = none → (formatGetIssue raw).labels = []) ∧
    (raw.milestone = none → (formatGetIssue raw).milestone = none) ∧
    (raw.user = none → (formatGetIssue raw).author = none) ∧
    (raw.reactions = none →
      (formatGetIssue raw).reactions =
        { total_count := 0, plus_one := 0, minus_one := 0, laugh := 0, hooray := 0
        , confused := 0, heart := 0, rocket := 0, eyes := 0 }) := by
  refine ⟨rfl, ?_, ?_, ?_, rfl, ?_, ?_, ?_, ?_, ?_⟩
  · intro h
    have hb : flattenNewlines (truncateBody (bodyText i.body)) = "(No description)" := by
      rw [h]
      decide
    rw [formatIssue, hb]
  · intro c hc
    have hdata : (flattenNewlines (truncateBody (bodyText i.body))).data =
        (truncateBody (bodyText i.body)).data.map
          (fun c => if c = '\n' then ' ' else c) := rfl
    rw [hdata] at hc
    obtain ⟨a, _, rfl⟩ := List.mem_map.mp hc
    by_cases ha : a = '\n'
    · simp [ha]
    · simp [ha]
  · intro h
    simp [truncateBody, h]
  · intro h; simp [formatGetIssue, h]
  · intro h; simp [formatGetIssue, h]
  · intro h; simp [formatGetIssue, h]
  · intro h; simp [formatGetIssue, h]
  · intro h; simp [formatGetIssue, h]

/-- Witness for `c8_formatter_total`: a bodyless issue and a raw issue
with every optional field absent. -/
theorem c8_formatter_total_witness :
    formatIssue { number := 1, title := "t", state := "open", body := none } =
      "#" ++ toString (1 : Nat) ++ ": " ++ "t" ++ " [" ++ "open" ++ "]"
        ++ "\n   " ++ "(No description)" ∧
    (formatGetIssue sampleRawIssue).assignees = [] ∧
    (formatGetIssue sampleRawIssue).milestone = none ∧
    (formatGetIssue sampleRawIssue).reactions =
      { total_count := 0, plus_one := 0, minus_one := 0, laugh := 0, hooray := 0
      , confused := 0, heart := 0, rocket := 0, eyes := 0 } := by
  refine ⟨?_, ?_, ?_, ?_⟩
  · exact (c8_formatter_total { number := 1, title := "t", state := "open", body := none }
      sampleRawIssue).2.1 rfl
  · exact (c8_formatter_total { number := 1, title := "t", state := "open", body := none }
      sampleRawIssue).2.2.2.2.2.1 rfl
  · exact (c8_formatter_total { number := 1, title := "t", state := "open", body := none }
      sampleRawIssue).2.2.2.2.2.2.2.1 rfl
  · exact (c8_formatter_total { number := 1, title := "t", state := "open", body := none }
      sampleRawIssue).2.2.2.2.2.2.2.2.2 rfl

/-- C9: with the `GITHUB_AUTH_TOKEN` credential absent, every one of the
six operations returns the ConfigError text and performs no request. -/
theorem c9_no_token_no_request (env : Env)
    (h : env.GITHUB_AUTH_TOKEN = none) :
    (∀ (perPage : Nat) (maxResults : Option Nat) (trace : List FetchResult),
      listGithubIssuesHandler env perPage maxResults trace =
        (ListIssuesOut.error configErrorText, [])) ∧
    (∀ (perPage page : Nat) (resp : HttpResult RepoPage),
      listGithubRepositoriesHandler env perPage page resp =
        (ReposOut.error configErrorText, [])) ∧
    (∀ (perPage page : Nat) (resp : HttpResult OrgPage),
      getGithubOrganisationsHandler env perPage page resp =
        (OrgsOut.error configErrorText, [])) ∧
    (∀ (p : CreateParams) (resp : HttpResult CreatedIssue),
      createGithubIssueHandler env p resp = (CreateOut.error configErrorText, [])) ∧
    (∀ (p : UpdateParams) (resp : HttpResult UpdatedIssue),
      updateGithubIssueHandler env p resp = (UpdateOut.error configErrorText, [])) ∧
    (∀ resp : HttpResult RawIssue,
      getGithubIssueHandler env resp = (GetIssueOut.error configErrorText, 0)) := by
  have henv : envTokenTruthy env = false := by simp [envTokenTruthy, h]
  refine ⟨?_, ?_, ?_, ?_, ?_, ?_⟩ <;> intros <;>
    simp [listGithubIssuesHandler, listGithubRepositoriesHandler,
      getGithubOrganisationsHandler, createGithubIssueHandler,
      updateGithubIssueHandler, getGithubIssueHandler, henv]

/-- Witness for `c9_no_token_no_request`: the unset-token environment. -/
theorem c9_no_token_no_request_witness :
    listGithubIssuesHandler { GITHUB_AUTH_TOKEN := none } 30 none [] =
      (ListIssuesOut.error configErrorText, []) ∧
    getGithubIssueHandler { GITHUB_AUTH_TOKEN := none }
        (HttpResult.ok sampleRawIssue) =
      (GetIssueOut.error configErrorText, 0) :=
  ⟨(c9_no_token_no_request { GITHUB_AUTH_TOKEN := none } rfl).1 30 none [],
   (c9_no_token_no_request { GITHUB_AUTH_TOKEN := none } rfl).2.2.2.2.2
     (HttpResult.ok sampleRawIssue)⟩

/-- C10: a present-but-empty `GITHUB_AUTH_TOKEN` is treated exactly like
an absent one — the guard uses JavaScript string truthiness, so every
operation returns the ConfigError text and performs no request. -/
theorem c10_empty_token_like_absent (env : Env)
    (h : env.GITHUB_AUTH_TOKEN = some "") :
    (∀ (perPage : Nat) (maxResults : Option Nat) (trace : List FetchResult),
      listGithubIssuesHandler env perPage maxResults trace =
        (ListIssuesOut.error configErrorText, [])) ∧
    (∀ (perPage page : Nat) (resp : HttpResult RepoPage),
      listGithubRepositoriesHandler env perPage page resp =
        (ReposOut.error configErrorText, [])) ∧
    (∀ (perPage page : Nat) (resp : HttpResult OrgPage),
      getGithubOrganisationsHandler env perPage page resp =
        (OrgsOut.error configErrorText, [])) ∧
    (∀ (p : CreateParams) (resp : HttpResult CreatedIssue),
      createGithubIssueHandler env p resp = (CreateOut.error configErrorText, [])) ∧
    (∀ (p : UpdateParams) (resp : HttpResult UpdatedIssue),
      updateGithubIssueHandler env p resp = (UpdateOut.error configErrorText, [])) ∧
    (∀ resp : HttpResult RawIssue,
      getGithubIssueHandler env resp = (GetIssueOut.error configErrorText, 0)) := by
  have henv : envTokenTruthy env = false := by simp [envTokenTruthy, h]
  refine ⟨?_, ?_, ?_, ?_, ?_, ?_⟩ <;> intros <;>
    simp [listGithubIssuesHandler, listGithubRepositoriesHandler,
      getGithubOrganisationsHandler, createGithubIssueHandler,
      updateGithubIssueHandler, getGithubIssueHandler, henv]

/-- Witness for `c10_empty_token_like_absent`: the empty-string token. -/
theorem c10_empty_token_like_absent_witness :
    listGithubIssuesHandler { GITHUB_AUTH_TOKEN := some "" } 30 none [] =
      (ListIssuesOut.error configErrorText, []) ∧
    createGithubIssueHandler { GITHUB_AUTH_TOKEN := some "" }
        ⟨"o", "r", "T", none, none, none, none⟩ (HttpResult.ok ⟨1, "T", "u"⟩) =
      (CreateOut.error configErrorText, []) :=
  ⟨(c10_empty_token_like_absent { GITHUB_AUTH_TOKEN := some "" } rfl).1 30 none [],
   (c10_empty_token_like_absent { GITHUB_AUTH_TOKEN := some "" } rfl).2.2.2.1
     ⟨"o", "r", "T", none, none, none, none⟩ (HttpResult.ok ⟨1, "T", "u"⟩)⟩

end GhMcp
